import Mathlib

/-!
Verification development for the UCAR sentiment-analysis service
(`src/main.py`): a FastAPI app with one SQLite table `reviews`, a keyword
sentiment classifier `analyze_sentiment`, and two handlers `create_review`
(POST /reviews) and `get_reviews` (GET /reviews?sentiment=...).

Python strings are modelled as lists of Unicode code points (`PyStr`);
`str.lower` is modelled character-wise on the alphabets the program uses
(ASCII letters and the Cyrillic block appearing in the embedded keyword
lists); `word in text` is modelled as contiguous-sublist containment.
The SQLite table is modelled as a list of rows plus the next AUTOINCREMENT
rowid; the handlers' try/except/finally control flow is modelled explicitly,
including the fact that the blanket `except Exception` in `get_reviews`
catches the `HTTPException(400, ...)` raised inside the `try` block.
-/

/-- A Python string, as its list of Unicode code points. -/
abbrev PyStr := List Nat

/-- Character-wise model of Python `str.lower` on the code points the program
uses: ASCII `A`-`Z` (65..90) map to `a`-`z`, Cyrillic `А`-`Я` (1040..1071)
map to `а`-`я` (+32), and `Ё` (1025) maps to `ё` (1105); everything else is
fixed. -/
def lowerCp (c : Nat) : Nat :=
  if 65 ≤ c ∧ c ≤ 90 then c + 32
  else if 1040 ≤ c ∧ c ≤ 1071 then c + 32
  else if c = 1025 then 1105
  else c

/-- Model of Python `str.lower` (`text.lower()` at src/main.py:76). -/
def pyLower (s : PyStr) : PyStr := s.map lowerCp

/-- `startsWith t w` : `w` is an initial segment of `t`. -/
def startsWith : PyStr → PyStr → Bool
  | _, [] => true
  | [], _ :: _ => false
  | a :: t, b :: w => (a == b) && startsWith t w

/-- Model of Python's substring test `w in t`: `w` occurs contiguously in
`t` (the empty string occurs in every string). -/
def containsSub : PyStr → PyStr → Bool
  | [], w => startsWith [] w
  | a :: t, w => startsWith (a :: t) w || containsSub t w

/-- The positive keyword stems of src/main.py:79, as code points:
хорош, отличн, прекрасн, люблю, нравится, супер, класс. -/
def positive_words : List PyStr :=
  [ [1093, 1086, 1088, 1086, 1096]
  , [1086, 1090, 1083, 1080, 1095, 1085]
  , [1087, 1088, 1077, 1082, 1088, 1072, 1089, 1085]
  , [1083, 1102, 1073, 1083, 1102]
  , [1085, 1088, 1072, 1074, 1080, 1090, 1089, 1103]
  , [1089, 1091, 1087, 1077, 1088]
  , [1082, 1083, 1072, 1089, 1089] ]

/-- The negative keyword stems of src/main.py:80, as code points:
плох, ужасн, ненавиж, отвратительн, кошмар, разочарован. -/
def negative_words : List PyStr :=
  [ [1087, 1083, 1086, 1093]
  , [1091, 1078, 1072, 1089, 1085]
  , [1085, 1077, 1085, 1072, 1074, 1080, 1078]
  , [1086, 1090, 1074, 1088, 1072, 1090, 1080, 1090, 1077, 1083, 1100, 1085]
  , [1082, 1086, 1096, 1084, 1072, 1088]
  , [1088, 1072, 1079, 1086, 1095, 1072, 1088, 1086, 1074, 1072, 1085] ]

/-- The classifier `analyze_sentiment` of src/main.py:67-91: lower-case the
input, return positive if any positive stem occurs as a substring, else
negative if any negative stem occurs, else neutral. -/
def analyze_sentiment (text : PyStr) : String :=
  let t := pyLower text
  if positive_words.any (fun w => containsSub t w) then "positive"
  else if negative_words.any (fun w => containsSub t w) then "negative"
  else "neutral"

/-- `lowerCp` is idempotent: lowering an already-lowered code point leaves
it unchanged. -/
theorem lowerCp_idem (c : Nat) : lowerCp (lowerCp c) = lowerCp c := by
  simp only [lowerCp]
  split_ifs <;> omega

/-- `pyLower` is idempotent. -/
theorem pyLower_idem (s : PyStr) : pyLower (pyLower s) = pyLower s := by
  simp only [pyLower, List.map_map]
  exact List.map_congr_left fun c _ => lowerCp_idem c

/-- C3: any text whose lower-cased form contains at least one positive
keyword stem and at least one negative keyword stem is classified
`positive` — the positive check at src/main.py:83 runs first. -/
theorem analyze_sentiment_pos_precedence (text : PyStr)
    (hp : positive_words.any (fun w => containsSub (pyLower text) w) = true)
    (hn : negative_words.any (fun w => containsSub (pyLower text) w) = true) :
    analyze_sentiment text = "positive" := by
  simp only [analyze_sentiment, hp, if_true]

/-- Witness for C3 at the concrete text "Отличный кошмар", which contains
the positive stem "отличн" and the negative stem "кошмар". -/
theorem analyze_sentiment_pos_precedence_witness :
    positive_words.any (fun w => containsSub
      (pyLower [1054, 1090, 1083, 1080, 1095, 1085, 1099, 1081, 32,
                1082, 1086, 1096, 1084, 1072, 1088]) w) = true ∧
    negative_words.any (fun w => containsSub
      (pyLower [1054, 1090, 1083, 1080, 1095, 1085, 1099, 1081, 32,
                1082, 1086, 1096, 1084, 1072, 1088]) w) = true ∧
    analyze_sentiment [1054, 1090, 1083, 1080, 1095, 1085, 1099, 1081, 32,
                1082, 1086, 1096, 1084, 1072, 1088] = "positive" :=
  ⟨by decide, by decide,
   analyze_sentiment_pos_precedence _ (by decide) (by decide)⟩

/-- C7: the classifier is invariant under lower-casing its input, because
src/main.py:76 lower-cases before any keyword test. -/
theorem analyze_sentiment_case_invariant (text : PyStr) :
    analyze_sentiment text = analyze_sentiment (pyLower text) := by
  simp only [analyze_sentiment, pyLower_idem]

/-- Helper: the classifier can only produce the three labels of
src/main.py:84, 88 and 91. -/
theorem analyze_sentiment_cases (text : PyStr) :
    analyze_sentiment text = "positive" ∨ analyze_sentiment text = "negative" ∨
    analyze_sentiment text = "neutral" := by
  simp only [analyze_sentiment]
  split_ifs <;> simp

/-- C8: the classifier always returns one of the three labels, and returns
`neutral` exactly when neither keyword list matches the lower-cased text
(src/main.py:83-91). -/
theorem analyze_sentiment_total (text : PyStr) :
    (analyze_sentiment text = "positive" ∨ analyze_sentiment text = "negative" ∨
     analyze_sentiment text = "neutral") ∧
    (positive_words.any (fun w => containsSub (pyLower text) w) = false →
     negative_words.any (fun w => containsSub (pyLower text) w) = false →
     analyze_sentiment text = "neutral") := by
  constructor
  · exact analyze_sentiment_cases text
  · intro hp hn
    simp only [analyze_sentiment, hp, hn, Bool.false_eq_true, if_false]

/-- Witness for C8 at the concrete text "обычный сервис", which contains no
keyword stem of either list. -/
theorem analyze_sentiment_total_witness :
    (analyze_sentiment [1086, 1073, 1099, 1095, 1085, 1099, 1081, 32,
        1089, 1077, 1088, 1074, 1080, 1089] = "positive" ∨
     analyze_sentiment [1086, 1073, 1099, 1095, 1085, 1099, 1081, 32,
        1089, 1077, 1088, 1074, 1080, 1089] = "negative" ∨
     analyze_sentiment [1086, 1073, 1099, 1095, 1085, 1099, 1081, 32,
        1089, 1077, 1088, 1074, 1080, 1089] = "neutral") ∧
    analyze_sentiment [1086, 1073, 1099, 1095, 1085, 1099, 1081, 32,
        1089, 1077, 1088, 1074, 1080, 1089] = "neutral" :=
  ⟨(analyze_sentiment_total _).1,
   (analyze_sentiment_total _).2 (by decide) (by decide)⟩

/-- A row of the `reviews` table (columns at src/main.py:30-35), which is
also the shape of the `ReviewResponse` body (src/main.py:56-61). -/
structure Review where
  id : Nat
  text : PyStr
  sentiment : String
  created_at : String
deriving DecidableEq, Repr

/-- The state of the SQLite store: the rows of the `reviews` table plus the
next AUTOINCREMENT rowid (ids are assigned sequentially and never reused;
the service has no delete operation). -/
structure StoreState where
  rows : List Review
  nextId : Nat
deriving DecidableEq, Repr

/-- The `INSERT INTO reviews ...` statement of src/main.py:123-126 together
with `cursor.lastrowid`: appends a row with the next rowid and returns that
rowid. -/
def insertReview (st : StoreState) (text : PyStr) (sentiment created_at : String) :
    StoreState × Nat :=
  (⟨st.rows ++ [⟨st.nextId, text, sentiment, created_at⟩], st.nextId + 1⟩, st.nextId)

/-- A UTC wall-clock instant as Python's `datetime` holds it
(`datetime.utcnow()` at src/main.py:115). -/
structure UTCTime where
  year : Nat
  month : Nat
  day : Nat
  hour : Nat
  minute : Nat
  second : Nat
  microsecond : Nat
deriving DecidableEq, Repr

/-- The field ranges Python's `datetime` guarantees for any value
`datetime.utcnow()` can return. -/
def UTCTime.Valid (t : UTCTime) : Prop :=
  1 ≤ t.year ∧ t.year ≤ 9999 ∧ 1 ≤ t.month ∧ t.month ≤ 12 ∧
  1 ≤ t.day ∧ t.day ≤ 31 ∧ t.hour ≤ 23 ∧ t.minute ≤ 59 ∧
  t.second ≤ 59 ∧ t.microsecond ≤ 999999

/-- Fixed-width decimal rendering, 2 digits (`%02d` for values < 100). -/
def pad2 (n : Nat) : List Char := [Nat.digitChar (n / 10 % 10), Nat.digitChar (n % 10)]

/-- Fixed-width decimal rendering, 4 digits (`%04d` for values < 10000). -/
def pad4 (n : Nat) : List Char :=
  [Nat.digitChar (n / 1000 % 10), Nat.digitChar (n / 100 % 10),
   Nat.digitChar (n / 10 % 10), Nat.digitChar (n % 10)]

/-- Fixed-width decimal rendering, 6 digits (`%06d` for values < 1000000). -/
def pad6 (n : Nat) : List Char :=
  [Nat.digitChar (n / 100000 % 10), Nat.digitChar (n / 10000 % 10),
   Nat.digitChar (n / 1000 % 10), Nat.digitChar (n / 100 % 10),
   Nat.digitChar (n / 10 % 10), Nat.digitChar (n % 10)]

/-- Python's `datetime.isoformat()` (src/main.py:115):
`YYYY-MM-DDTHH:MM:SS`, with `.ffffff` appended when the microsecond field
is non-zero. -/
def isoformat (t : UTCTime) : String :=
  ⟨pad4 t.year ++ '-' :: pad2 t.month ++ '-' :: pad2 t.day ++
   'T' :: pad2 t.hour ++ ':' :: pad2 t.minute ++ ':' :: pad2 t.second ++
   (if t.microsecond = 0 then [] else '.' :: pad6 t.microsecond)⟩

/-- Modelled from the spec: a checker for the timestamp shape the spec calls
"ISO-8601 format" — `YYYY-MM-DDTHH:MM:SS` optionally followed by a 6-digit
fractional-second part, all digit positions decimal digits. -/
def isISO8601 (s : String) : Bool :=
  match s.toList with
  | y1 :: y2 :: y3 :: y4 :: c1 :: m1 :: m2 :: c2 :: d1 :: d2 :: c3 ::
    h1 :: h2 :: c4 :: n1 :: n2 :: c5 :: s1 :: s2 :: rest =>
      [y1, y2, y3, y4, m1, m2, d1, d2, h1, h2, n1, n2, s1, s2].all Char.isDigit &&
      (c1 == '-') && (c2 == '-') && (c3 == 'T') && (c4 == ':') && (c5 == ':') &&
      (match rest with
       | [] => true
       | c :: fs => (c == '.') && (fs.length == 6) && fs.all Char.isDigit)
  | _ => false

/-- The POST /reviews handler `create_review` (src/main.py:97-140) on its
success path: classify the text, render the timestamp, insert, and answer
with the full record including the assigned id. The current UTC instant is
a parameter, standing for `datetime.utcnow()`. -/
def create_review (st : StoreState) (text : PyStr) (now : UTCTime) :
    StoreState × Review :=
  let sentiment := analyze_sentiment text
  let created_at := isoformat now
  let (st2, review_id) := insertReview st text sentiment created_at
  (st2, ⟨review_id, text, sentiment, created_at⟩)

/-- A raised `fastapi.HTTPException`, by status code and detail message. -/
structure HTTPError where
  status : Nat
  detail : String
deriving DecidableEq, Repr

/-- The detail of the `HTTPException(400, ...)` at src/main.py:172-175. -/
def invalidSentimentDetail : String :=
  "Недопустимое значение sentiment. Допустимо: positive, negative, neutral"

/-- The wrapping done by `except Exception as e: raise HTTPException(500,
f"Ошибка при получении отзывов: ...")` at src/main.py:198-202; `str(e)` for
an `HTTPException` is rendered as `status: detail`. -/
def listErrorWrap (e : HTTPError) : HTTPError :=
  ⟨500, "Ошибка при получении отзывов: " ++ toString e.status ++ ": " ++ e.detail⟩

/-- The allowed filter values checked at src/main.py:171. -/
def validSentiments : List String := ["positive", "negative", "neutral"]

/-- Python truthiness of the `Optional[str]` query parameter as tested by
`if sentiment:` at src/main.py:169 — `None` and the empty string are falsy. -/
def truthyOptStr : Option String → Bool
  | none => false
  | some s => !(s == "")

/-- The GET /reviews handler `get_reviews` (src/main.py:152-205), storage
errors aside. The body of the `try` block either returns the (possibly
filtered) rows or raises `HTTPException(400, ...)`; the blanket
`except Exception` at src/main.py:198 catches that exception and re-raises
it wrapped in an `HTTPException(500, ...)`. -/
def get_reviews (rows : List Review) (sentiment : Option String) :
    Except HTTPError (List Review) :=
  let body : Except HTTPError (List Review) :=
    if truthyOptStr sentiment then
      match sentiment with
      | some s =>
          if !(validSentiments.contains s) then
            Except.error ⟨400, invalidSentimentDetail⟩
          else
            Except.ok (rows.filter (fun r => r.sentiment == s))
      | none => Except.ok rows
    else
      Except.ok rows
  match body with
  | Except.ok r => Except.ok r
  | Except.error e => Except.error (listErrorWrap e)

/-- Pydantic validation of the POST /reviews body against `ReviewRequest`
(src/main.py:52-54): the field `text` must be present and a string; no
other constraint is declared, so any string — the empty one included —
passes. -/
inductive BodyText where
  | missing : BodyText
  | nonStr : BodyText
  | strVal : PyStr → BodyText
deriving DecidableEq

/-- Outcome of pydantic validation for `ReviewRequest` (src/main.py:52-54):
a 422 validation error, or the accepted `text` value. -/
def validateReviewRequest : BodyText → Except Unit PyStr
  | BodyText.missing => Except.error ()
  | BodyText.nonStr => Except.error ()
  | BodyText.strVal s => Except.ok s

/-- A fixed sample instant, 2026-10-12T00:00:00 UTC, used as the concrete
value of `datetime.utcnow()` in witnesses and counterexamples. -/
def sampleTime : UTCTime := ⟨2026, 10, 12, 0, 0, 0, 0⟩

/-- C10: a present-but-empty `sentiment` query value is falsy under the
`if sentiment:` test at src/main.py:169, so the handler is not rejected as
invalid and behaves exactly as if the parameter were absent, returning all
stored records. -/
theorem get_reviews_empty_sentiment (rows : List Review) :
    get_reviews rows (some ("")) = Except.ok rows ∧
    get_reviews rows (some ("")) = get_reviews rows none :=
  ⟨rfl, rfl⟩

/-- C4: filtering by `positive` answers exactly the stored rows whose
sentiment column equals `positive` (the `WHERE sentiment = ?` of
src/main.py:177-180): a row is in the result iff it is stored with that
label, so no other label ever appears. -/
theorem get_reviews_filter_positive (rows : List Review) (r : Review) :
    ∃ l, get_reviews rows (some ("positive")) = Except.ok l ∧
      (r ∈ l ↔ r ∈ rows ∧ r.sentiment = "positive") := by
  refine ⟨rows.filter (fun x => x.sentiment == "positive"), rfl, ?_⟩
  simp [List.mem_filter]

/-- C1 (failing input): on `GET /reviews?sentiment=happy` the
`HTTPException(400, ...)` raised at src/main.py:172 is caught by the blanket
`except Exception` at src/main.py:198 and re-raised as a 500, so the client
receives a server error, not the 400 the code intends; no records are
returned either way. -/
theorem get_reviews_invalid_sentiment_is_500 :
    get_reviews [] (some ("happy")) =
      Except.error ⟨500, "Ошибка при получении отзывов: 400: " ++
        invalidSentimentDetail⟩ :=
  rfl

/-- C2 (counterexample): pydantic accepts an empty `text` (the schema at
src/main.py:52-54 only requires a string), the handler body runs, and a
record is persisted — with sentiment `neutral`, since no keyword stem
occurs in the empty string. -/
theorem empty_text_accepted_and_persisted :
    validateReviewRequest (BodyText.strVal []) = Except.ok [] ∧
    (create_review ⟨[], 1⟩ [] sampleTime).1.rows =
      [⟨1, [], "neutral", isoformat sampleTime⟩] :=
  ⟨rfl, rfl⟩

/-- C2 (amended): a POST /reviews body whose `text` is the empty string
passes schema validation, and the create operation persists one new record,
classified `neutral`, returning it. -/
theorem empty_text_validates_and_persists (st : StoreState) (t : UTCTime) :
    validateReviewRequest (BodyText.strVal []) = Except.ok [] ∧
    (create_review st [] t).1.rows =
      st.rows ++ [⟨st.nextId, [], "neutral", isoformat t⟩] ∧
    (create_review st [] t).2.sentiment = "neutral" :=
  ⟨rfl, rfl, rfl⟩

/-- Helper: the fixed-width digit renderings produce only decimal digits. -/
theorem digitChar_mod_isDigit (n : Nat) : (Nat.digitChar (n % 10)).isDigit = true := by
  have h : n % 10 < 10 := Nat.mod_lt _ (by norm_num)
  generalize n % 10 = m at h
  interval_cases m <;> decide

/-- Helper: every string `isoformat` renders passes the ISO-8601 shape
check. -/
theorem isISO8601_isoformat (t : UTCTime) : isISO8601 (isoformat t) = true := by
  by_cases hm : t.microsecond = 0 <;>
    simp [isISO8601, isoformat, pad4, pad2, pad6, hm, String.toList,
      digitChar_mod_isDigit]

/-- C5: a successfully created review, when subsequently listed without a
filter, appears with the same id, identical text and sentiment, and the
same `created_at`, which matches the ISO-8601 shape. -/
theorem create_then_list_round_trip (st : StoreState) (text : PyStr)
    (t : UTCTime) (hv : t.Valid) :
    ∃ l, get_reviews (create_review st text t).1.rows none = Except.ok l ∧
      ∃ r ∈ l, r.id = (create_review st text t).2.id ∧
        r.text = (create_review st text t).2.text ∧
        r.sentiment = (create_review st text t).2.sentiment ∧
        r.created_at = (create_review st text t).2.created_at ∧
        isISO8601 r.created_at = true := by
  refine ⟨(create_review st text t).1.rows, rfl,
    (create_review st text t).2, ?_, rfl, rfl, rfl, rfl, isISO8601_isoformat t⟩
  simp [create_review, insertReview]

/-- Witness for C5 at the empty store, the text "Плохой день" and the
sample instant. -/
theorem create_then_list_round_trip_witness :
    UTCTime.Valid sampleTime ∧
    (∃ l, get_reviews (create_review ⟨[], 1⟩
        [1055, 1083, 1086, 1093, 1086, 1081, 32, 1076, 1077, 1085, 1100]
        sampleTime).1.rows none = Except.ok l ∧
      ∃ r ∈ l, r.id = (create_review ⟨[], 1⟩
          [1055, 1083, 1086, 1093, 1086, 1081, 32, 1076, 1077, 1085, 1100]
          sampleTime).2.id ∧
        r.text = (create_review ⟨[], 1⟩
          [1055, 1083, 1086, 1093, 1086, 1081, 32, 1076, 1077, 1085, 1100]
          sampleTime).2.text ∧
        r.sentiment = (create_review ⟨[], 1⟩
          [1055, 1083, 1086, 1093, 1086, 1081, 32, 1076, 1077, 1085, 1100]
          sampleTime).2.sentiment ∧
        r.created_at = (create_review ⟨[], 1⟩
          [1055, 1083, 1086, 1093, 1086, 1081, 32, 1076, 1077, 1085, 1100]
          sampleTime).2.created_at ∧
        isISO8601 r.created_at = true) :=
  ⟨by unfold UTCTime.Valid; decide,
   create_then_list_round_trip ⟨[], 1⟩ _ sampleTime (by unfold UTCTime.Valid; decide)⟩

/-- A sequence of create operations starting from a given store state
(each element supplies the request text and the instant `datetime.utcnow()`
returns). -/
def runCreates (st : StoreState) (inputs : List (PyStr × UTCTime)) : StoreState :=
  inputs.foldl (fun s p => (create_review s p.1 p.2).1) st

/-- Helper: creates preserve the three-label invariant of the store. -/
theorem runCreates_labels (inputs : List (PyStr × UTCTime)) (st : StoreState)
    (hst : ∀ x ∈ st.rows, x.sentiment = "positive" ∨ x.sentiment = "negative" ∨
      x.sentiment = "neutral") :
    ∀ x ∈ (runCreates st inputs).rows,
      x.sentiment = "positive" ∨ x.sentiment = "negative" ∨ x.sentiment = "neutral" := by
  induction inputs generalizing st with
  | nil => exact hst
  | cons p ps ih =>
      refine ih _ ?_
      intro x hx
      simp only [create_review, insertReview, List.mem_append,
        List.mem_singleton] at hx
      rcases hx with hx | hx
      · exact hst x hx
      · subst hx
        exact analyze_sentiment_cases p.1

/-- C6: after any sequence of create operations starting from the freshly
initialized (empty) store, every stored review carries one of the three
labels — the insert at src/main.py:123-126 only ever stores the output of
`analyze_sentiment`. -/
theorem stored_sentiment_three_valued (inputs : List (PyStr × UTCTime))
    (r : Review) (hr : r ∈ (runCreates ⟨[], 1⟩ inputs).rows) :
    r.sentiment = "positive" ∨ r.sentiment = "negative" ∨ r.sentiment = "neutral" :=
  runCreates_labels inputs ⟨[], 1⟩ (by simp) r hr

/-- Witness for C6: one create of an empty text stores a `neutral` row. -/
theorem stored_sentiment_three_valued_witness :
    (⟨1, [], "neutral", isoformat sampleTime⟩ : Review) ∈
      (runCreates ⟨[], 1⟩ [([], sampleTime)]).rows ∧
    ((⟨1, [], "neutral", isoformat sampleTime⟩ : Review).sentiment = "positive" ∨
     (⟨1, [], "neutral", isoformat sampleTime⟩ : Review).sentiment = "negative" ∨
     (⟨1, [], "neutral", isoformat sampleTime⟩ : Review).sentiment = "neutral") :=
  ⟨by decide, stored_sentiment_three_valued [([], sampleTime)] _ (by decide)⟩

/-- A connection-lifecycle event of one storage operation: `sqlite3.connect`
succeeding, or `conn.close()` running. -/
inductive ConnEvent where
  | openC : ConnEvent
  | closeC : ConnEvent
deriving DecidableEq, Repr

/-- Every connection that was opened gets closed. -/
def balanced (ev : List ConnEvent) : Prop :=
  ev.count ConnEvent.openC = ev.count ConnEvent.closeC

/-- Connection trace of `init_db` (src/main.py:19-43) under every failure
combination. If `sqlite3.connect` raises (`connectFail`), no connection is
opened; the `except` prints, and the `finally` then hits the unbound local
`conn` — no close event, but also nothing to close. If a statement
(`execute`/`commit`) raises (`stmtFail`), the `except` prints and the
`finally` closes the open connection. On success the `finally` closes it. -/
def init_db_conn (connectFail stmtFail : Bool) : List ConnEvent :=
  if connectFail then
    []
  else if stmtFail then
    [ConnEvent.openC, ConnEvent.closeC]
  else
    [ConnEvent.openC, ConnEvent.closeC]

/-- Connection trace of `create_review` (src/main.py:117-150) under every
failure combination: same shape as `init_db` — `connect` failing leaves
nothing open (the handler then dies on the unbound `conn` in `finally`); a
failing `INSERT`/`commit` is wrapped into an `HTTPException(500, ...)` by
the `except`, and the `finally` closes the connection; the success path
closes it too. -/
def create_review_conn (connectFail stmtFail : Bool) : List ConnEvent :=
  if connectFail then
    []
  else if stmtFail then
    [ConnEvent.openC, ConnEvent.closeC]
  else
    [ConnEvent.openC, ConnEvent.closeC]

/-- Connection trace of `get_reviews` (src/main.py:164-205) under every
failure combination, including the `HTTPException(400, ...)` raised for an
invalid filter after the connection is already open (`sentInvalid`): that
exception, like a failing `SELECT` (`stmtFail`), lands in the `except`
clause, and the `finally` closes the open connection. -/
def get_reviews_conn (connectFail sentInvalid stmtFail : Bool) : List ConnEvent :=
  if connectFail then
    []
  else if sentInvalid then
    [ConnEvent.openC, ConnEvent.closeC]
  else if stmtFail then
    [ConnEvent.openC, ConnEvent.closeC]
  else
    [ConnEvent.openC, ConnEvent.closeC]

/-- C9: for every combination of failure points — `sqlite3.connect` raising,
a statement raising, or the invalid-filter `HTTPException` — each of the
three storage operations closes every connection it opened before
returning: the `finally` blocks at src/main.py:41-43, 148-150 and 203-205
run on every exit path, and when `connect` itself fails no connection
exists to leak. -/
theorem connection_released_all_paths (cf1 sf1 cf2 sf2 cf3 inv sf3 : Bool) :
    balanced (init_db_conn cf1 sf1) ∧
    balanced (create_review_conn cf2 sf2) ∧
    balanced (get_reviews_conn cf3 inv sf3) := by
  refine ⟨?_, ?_, ?_⟩
  · unfold balanced init_db_conn
    cases cf1 <;> cases sf1 <;> decide
  · unfold balanced create_review_conn
    cases cf2 <;> cases sf2 <;> decide
  · unfold balanced get_reviews_conn
    cases cf3 <;> cases inv <;> cases sf3 <;> decide
